import Mathlib

/-!
Verification of the `serde_email` crate (repository `emailio`).

The crate's `lib.rs` declares three modules: `email`, `email_error` and
`is_valid_email`.  Their bodies are not part of the sources available here,
so the validator, the `Email` wrapper, its error type and its serde
integration are modelled from the specification (sections 4.1, 4.2, 6, 7)
and then the claims of the specification are settled against that model.
-/

namespace SerdeEmail

/-- Modelled from the spec: control characters, needed for rule 5 of the
grammar in section 4.1 ("No whitespace or control characters anywhere").
The module `is_valid_email` is missing from the sources. -/
def isControlChar (c : Char) : Bool :=
  c.toNat < 32 || c.toNat == 127

/-- Modelled from the spec: the allowed character class of the local part,
rule 2 of section 4.1 ("letters, digits, and a restricted set of
punctuation such as `.`, `_`, `%`, `+`, `-`").
The module `is_valid_email` is missing from the sources. -/
def isLocalChar (c : Char) : Bool :=
  c.isAlphanum || c == '.' || c == '_' || c == '%' || c == '+' || c == '-'

/-- Modelled from the spec: the allowed character class of a domain label,
rule 3 of section 4.1 ("composed of letters/digits/hyphen").
The module `is_valid_email` is missing from the sources. -/
def isDomainChar (c : Char) : Bool :=
  c.isAlphanum || c == '-'

/-- Modelled from the spec: detects two consecutive dots, used by rule 2 of
section 4.1 ("consecutive ... dots are rejected").
The module `is_valid_email` is missing from the sources. -/
def noConsecDots : List Char → Bool
  | [] => true
  | [_] => true
  | a :: b :: rest => !(a == '.' && b == '.') && noConsecDots (b :: rest)

/-- Modelled from the spec: the local-part rules, rule 2 of section 4.1:
non-empty, allowed character class, no leading/trailing dot, no
consecutive dots, length at most 64.
The module `is_valid_email` is missing from the sources. -/
def localOk (l : List Char) : Bool :=
  !l.isEmpty &&
  l.all isLocalChar &&
  !(l.head? == some '.') &&
  !(l.getLast? == some '.') &&
  noConsecDots l &&
  decide (l.length ≤ 64)

/-- Modelled from the spec: splits a character list at a separator,
used to cut the domain part into its dot-separated labels (rule 3 of
section 4.1). The module `is_valid_email` is missing from the sources. -/
def splitOnChar (sep : Char) : List Char → List (List Char)
  | [] => [[]]
  | c :: rest =>
    let r := splitOnChar sep rest
    if c == sep then [] :: r
    else
      match r with
      | [] => [[c]]
      | h :: t => (c :: h) :: t

/-- Modelled from the spec: the rules on one domain label, rule 3 of
section 4.1: non-empty, letters/digits/hyphen, no leading or
trailing hyphen. The module `is_valid_email` is missing from the sources. -/
def labelOk (lab : List Char) : Bool :=
  !lab.isEmpty &&
  lab.all isDomainChar &&
  !(lab.head? == some '-') &&
  !(lab.getLast? == some '-')

/-- Modelled from the spec: the rule on the final (top-level) label, rule 3
of section 4.1: purely alphabetic and at least two characters.
The module `is_valid_email` is missing from the sources. -/
def tldOk (lab : List Char) : Bool :=
  lab.all Char.isAlpha && decide (2 ≤ lab.length)

/-- Modelled from the spec: the domain-part rules, rule 3 of section 4.1:
non-empty, at least one dot, every label well-formed, final label a
valid top-level label, length at most 255.
The module `is_valid_email` is missing from the sources. -/
def domainOk (d : List Char) : Bool :=
  !d.isEmpty &&
  d.contains '.' &&
  (splitOnChar '.' d).all labelOk &&
  (match (splitOnChar '.' d).getLast? with
   | some lab => tldOk lab
   | none => false) &&
  decide (d.length ≤ 255)

/-- Modelled from the spec: the local part, "the two segments of an email
address separated by `@`" (glossary): the text before the separator. -/
def localPartOf (cs : List Char) : List Char :=
  cs.takeWhile (fun c => c != '@')

/-- Modelled from the spec: the domain part: the text after the
separator `@` (glossary). -/
def domainPartOf (cs : List Char) : List Char :=
  (cs.dropWhile (fun c => c != '@')).drop 1

/-- Modelled from the spec: the validator over a character sequence,
section 4.1.  Rule 1: exactly one separator `@`.  Rules 2 and 3 apply to
the text before and after the separator.  Rule 4: total length at most
320.  Rule 5: no whitespace or control characters anywhere.
The module `is_valid_email` is missing from the sources. -/
def validEmailChars (cs : List Char) : Bool :=
  if cs.count '@' == 1 then
    localOk (localPartOf cs) &&
    domainOk (domainPartOf cs) &&
    decide (cs.length ≤ 320) &&
    cs.all (fun c => !c.isWhitespace && !isControlChar c)
  else
    false

/-- Modelled from the spec: the standalone predicate `is_valid_email`,
sections 4.1 and 6 ("a standalone is-valid(text) -> boolean predicate").
The module `is_valid_email` is missing from the sources. -/
def is_valid_email (s : String) : Bool :=
  validEmailChars s.data

/-- Modelled from the spec: the `Email` validated value, section 3: it
"wraps exactly one owned text buffer".  The module `email` is missing
from the sources. -/
structure Email where
  text : String
  deriving DecidableEq, Repr

/-- Modelled from the spec: the `ValidationError` type, sections 3 and 7:
a single variant "does not match required email structure", carrying the
rejected input. The module `email_error` is missing from the sources. -/
structure ValidationError where
  candidate : String
  deriving DecidableEq, Repr

/-- Modelled from the spec: the checked constructor `Email::from_str`,
section 4.2: runs the Validator; on success returns an Email holding the
original text; on failure returns a ValidationError carrying the
rejected candidate. The module `email` is missing from the sources. -/
def Email.from_str (s : String) : Except ValidationError Email :=
  if is_valid_email s then .ok ⟨s⟩ else .error ⟨s⟩

/-- Modelled from the spec: serde serialization, section 4.2: "an Email
serializes to its underlying text verbatim".
The module `email` is missing from the sources. -/
def Email.serialize (e : Email) : String :=
  e.text

/-- Modelled from the spec: serde deserialization, section 4.2: decode the
raw text first, then route it through the identical checked constructor,
surfacing validation failure as a descriptive deserialization error.
The module `email` is missing from the sources. -/
def Email.deserialize (raw : String) : Except String Email :=
  match Email.from_str raw with
  | .ok e => .ok e
  | .error err => .error ("invalid email address: " ++ err.candidate)

/-- Modelled from the spec: copying an Email (the crate derives `Clone`);
a copy carries the same text. The module `email` is missing from the
sources. -/
def Email.clone (e : Email) : Email :=
  ⟨e.text⟩

/-- Modelled from the spec: equality of two Emails delegates to the
underlying text (section 4.2, "equality and ordering consistent with
plain string comparison of the underlying text").
The module `email` is missing from the sources. -/
def Email.beq (a b : Email) : Bool :=
  a.text == b.text

/-- Modelled from the spec: equality between an Email and a plain string
delegates to the underlying text (section 8, "an Email constructed from
a string compares equal to the plain string").
The module `email` is missing from the sources. -/
def Email.eqString (a : Email) (s : String) : Bool :=
  a.text == s

/-- Modelled from the spec: ordering of two Emails delegates to the
underlying text (section 4.2).
The module `email` is missing from the sources. -/
def Email.cmp (a b : Email) : Ordering :=
  compare a.text b.text

/-- Modelled from the spec: the reachable Email values, section 3: an
Email is "created only through the checked constructor ... or through
checked deserialization", and may be copied. -/
inductive Email.Reachable : Email → Prop
  | of_from_str (s : String) (e : Email) :
      Email.from_str s = .ok e → Email.Reachable e
  | of_deserialize (raw : String) (e : Email) :
      Email.deserialize raw = .ok e → Email.Reachable e
  | of_clone (e : Email) :
      Email.Reachable e → Email.Reachable (Email.clone e)

/-- Modelled from the spec: the `Person` record of the structured-decoding
scenario, section 8: decoding the two text fields, routing the email
field through checked deserialization; a failure produces no record. -/
structure Person where
  name : String
  email : Email
  deriving DecidableEq, Repr

/-- Modelled from the spec: decoding a `Person` from its raw text fields;
the email field re-validates through the checked path (section 4.2). -/
def Person.deserializeFields (name : String) (emailRaw : String) :
    Except String Person :=
  match Email.deserialize emailRaw with
  | .ok e => .ok ⟨name, e⟩
  | .error msg => .error msg

/-- Helper: a valid candidate makes the checked constructor succeed with
the original text. -/
theorem from_str_eq_ok (s : String) (h : is_valid_email s = true) :
    Email.from_str s = .ok ⟨s⟩ := by
  simp [Email.from_str, h]

/-- Helper: an invalid candidate makes the checked constructor fail,
carrying the rejected candidate. -/
theorem from_str_eq_error (s : String) (h : is_valid_email s = false) :
    Email.from_str s = .error ⟨s⟩ := by
  simp [Email.from_str, h]

/-- Helper: if the checked constructor succeeds then the candidate was
valid and the Email holds exactly the candidate text. -/
theorem from_str_ok_elim (s : String) (e : Email)
    (h : Email.from_str s = .ok e) :
    is_valid_email s = true ∧ e = ⟨s⟩ := by
  by_cases hv : is_valid_email s = true
  · refine ⟨hv, ?_⟩
    rw [from_str_eq_ok s hv] at h
    exact (Except.ok.inj h).symm
  · rw [from_str_eq_error s (by simpa using hv)] at h
    exact absurd h (by simp)

/-- C1: for every string s, is_valid_email s is true iff Email::from_str s
succeeds, and on success the resulting Email's text equals s exactly,
with no normalization. -/
theorem email_valid_iff_from_str_ok (s : String) :
    (is_valid_email s = true ↔ ∃ e, Email.from_str s = .ok e) ∧
    (∀ e, Email.from_str s = .ok e → e.text = s) := by
  constructor
  · constructor
    · intro h
      exact ⟨⟨s⟩, from_str_eq_ok s h⟩
    · rintro ⟨e, he⟩
      exact (from_str_ok_elim s e he).1
  · intro e he
    rw [(from_str_ok_elim s e he).2]

/-- Witness for C1 at the concrete input "test@example.com". -/
theorem email_valid_iff_from_str_ok_witness :
    (Email.mk "test@example.com").text = "test@example.com" :=
  (email_valid_iff_from_str_ok "test@example.com").2
    ⟨"test@example.com"⟩ (by rfl)

/-- C3: the classifier decides the six literal examples of the spec as
stated: the first two are valid (construction succeeds), the other four
are invalid (construction fails). -/
theorem email_literal_examples :
    is_valid_email "test@example.com" = true ∧
    is_valid_email "john.doe+tag@sub.example.co" = true ∧
    is_valid_email "user@localhost" = false ∧
    is_valid_email "@example.com" = false ∧
    is_valid_email "test@@example.com" = false ∧
    is_valid_email "test@example..com" = false ∧
    Email.from_str "test@example.com" = .ok ⟨"test@example.com"⟩ ∧
    Email.from_str "john.doe+tag@sub.example.co" =
      .ok ⟨"john.doe+tag@sub.example.co"⟩ ∧
    Email.from_str "user@localhost" = .error ⟨"user@localhost"⟩ ∧
    Email.from_str "@example.com" = .error ⟨"@example.com"⟩ ∧
    Email.from_str "test@@example.com" = .error ⟨"test@@example.com"⟩ ∧
    Email.from_str "test@example..com" = .error ⟨"test@example..com"⟩ :=
  ⟨by decide, by decide, by decide, by decide, by decide, by decide,
   by rfl, by rfl, by rfl, by rfl, by rfl, by rfl⟩

/-- C9: construction and validation are total: for every input string the
validator returns a definite boolean, and the checked constructor either
returns an Email holding the candidate or a ValidationError carrying the
rejected candidate; no partial value exists. -/
theorem email_total_dichotomy (s : String) :
    (is_valid_email s = true ∧ Email.from_str s = .ok ⟨s⟩) ∨
    (is_valid_email s = false ∧ Email.from_str s = .error ⟨s⟩) := by
  by_cases h : is_valid_email s = true
  · exact .inl ⟨h, from_str_eq_ok s h⟩
  · have h2 : is_valid_email s = false := by simpa using h
    exact .inr ⟨h2, from_str_eq_error s h2⟩

/-- Helper: deserialization succeeds exactly when the checked constructor
succeeds, with the same Email. -/
theorem deserialize_ok_elim (raw : String) (e : Email)
    (h : Email.deserialize raw = .ok e) :
    Email.from_str raw = .ok e := by
  unfold Email.deserialize at h
  cases hf : Email.from_str raw with
  | ok e2 => rw [hf] at h; simpa using h
  | error err => rw [hf] at h; simp at h

/-- C2: every reachable Email (produced by checked construction, checked
deserialization, or copying) holds text that satisfies the Validator's
rules. -/
theorem email_reachable_valid (e : Email) (h : Email.Reachable e) :
    is_valid_email e.text = true := by
  induction h with
  | of_from_str s e hs =>
    obtain ⟨hv, he⟩ := from_str_ok_elim s e hs
    rw [he]
    exact hv
  | of_deserialize raw e hr =>
    obtain ⟨hv, he⟩ := from_str_ok_elim raw e (deserialize_ok_elim raw e hr)
    rw [he]
    exact hv
  | of_clone e hr ih =>
    simpa [Email.clone] using ih

/-- Witness for C2: the Email built from "test@example.com" is reachable
and its text is valid. -/
theorem email_reachable_valid_witness :
    is_valid_email (Email.mk "test@example.com").text = true :=
  email_reachable_valid ⟨"test@example.com"⟩
    (Email.Reachable.of_from_str "test@example.com" ⟨"test@example.com"⟩
      (by rfl))

/-- C4: round-trip law: serializing a (valid) Email emits exactly its
underlying text, and deserializing that output succeeds and reproduces
an Email with identical text. -/
theorem email_serde_round_trip (e : Email)
    (h : is_valid_email e.text = true) :
    Email.serialize e = e.text ∧
    Email.deserialize (Email.serialize e) = .ok e := by
  refine ⟨rfl, ?_⟩
  unfold Email.serialize Email.deserialize
  rw [from_str_eq_ok e.text h]

/-- Witness for C4 at the Email holding "a@b.co". -/
theorem email_serde_round_trip_witness :
    Email.serialize ⟨"a@b.co"⟩ = "a@b.co" ∧
    Email.deserialize (Email.serialize ⟨"a@b.co"⟩) = .ok ⟨"a@b.co"⟩ :=
  email_serde_round_trip ⟨"a@b.co"⟩ (by decide)

/-- C5: for every string the Validator rejects, deserializing it (alone or
as the email field of a Person document) fails with a descriptive error:
no Email and no record is produced; decoding is decode-to-string
followed by the identical checked constructor. -/
theorem email_invalid_deserialize_fails (name t : String)
    (h : is_valid_email t = false) :
    Email.deserialize t = .error ("invalid email address: " ++ t) ∧
    Person.deserializeFields name t =
      .error ("invalid email address: " ++ t) ∧
    (∀ e, Email.deserialize t ≠ .ok e) ∧
    (∀ p, Person.deserializeFields name t ≠ .ok p) := by
  have hd : Email.deserialize t = .error ("invalid email address: " ++ t) := by
    unfold Email.deserialize
    rw [from_str_eq_error t h]
  have hp : Person.deserializeFields name t =
      .error ("invalid email address: " ++ t) := by
    unfold Person.deserializeFields
    rw [hd]
  refine ⟨hd, hp, ?_, ?_⟩
  · intro e
    rw [hd]
    simp
  · intro p
    rw [hp]
    simp

/-- Witness for C5 at the document field "not-an-email". -/
theorem email_invalid_deserialize_fails_witness :
    Email.deserialize "not-an-email" =
      .error ("invalid email address: " ++ "not-an-email") ∧
    Person.deserializeFields "John Doe" "not-an-email" =
      .error ("invalid email address: " ++ "not-an-email") :=
  ⟨(email_invalid_deserialize_fails "John Doe" "not-an-email" (by decide)).1,
   (email_invalid_deserialize_fails "John Doe" "not-an-email" (by decide)).2.1⟩

/-- Helper: a list containing two consecutive dots fails the
consecutive-dot check. -/
theorem noConsecDots_append_dots (a b : List Char) :
    noConsecDots (a ++ '.' :: '.' :: b) = false := by
  induction a with
  | nil => simp [noConsecDots]
  | cons x xs ih =>
    cases xs with
    | nil => simp [noConsecDots]
    | cons y ys =>
      simp only [List.cons_append] at ih ⊢
      simp only [noConsecDots]
      simp [ih]

/-- Helper: any one broken local-part rule falsifies the local-part
check. -/
theorem localOk_eq_false (l : List Char)
    (h : l.isEmpty = true ∨
         (∃ c ∈ l, isLocalChar c = false) ∨
         l.head? = some '.' ∨
         l.getLast? = some '.' ∨
         (∃ a b, l = a ++ '.' :: '.' :: b) ∨
         64 < l.length) :
    localOk l = false := by
  unfold localOk
  rcases h with h | ⟨c, hc, hf⟩ | h | h | ⟨a, b, h⟩ | h
  · simp [h]
  · have hall : l.all isLocalChar = false :=
      List.all_eq_false.mpr ⟨c, hc, by simp [hf]⟩
    simp [hall]
  · simp [h]
  · simp [h]
  · subst h
    simp [noConsecDots_append_dots]
  · have hlen : decide (l.length ≤ 64) = false := decide_eq_false (by omega)
    simp [hlen]

/-- Helper: any one broken domain-part rule falsifies the domain-part
check. -/
theorem domainOk_eq_false (d : List Char)
    (h : d.isEmpty = true ∨
         ('.' ∉ d) ∨
         (∃ lab ∈ splitOnChar '.' d, lab = []) ∨
         (∃ lab ∈ splitOnChar '.' d,
            lab.head? = some '-' ∨ lab.getLast? = some '-' ∨
            ∃ c ∈ lab, isDomainChar c = false) ∨
         (∃ t, (splitOnChar '.' d).getLast? = some t ∧
            (t.all Char.isAlpha = false ∨ t.length < 2))) :
    domainOk d = false := by
  unfold domainOk
  rcases h with h | h | ⟨lab, hm, hl⟩ | ⟨lab, hm, hl⟩ | ⟨t, ht, hcond⟩
  · simp [h]
  · simp [h]
  · have hall : (splitOnChar '.' d).all labelOk = false :=
      List.all_eq_false.mpr ⟨lab, hm, by subst hl; simp [labelOk]⟩
    simp [hall]
  · have hlab : labelOk lab = false := by
      unfold labelOk
      rcases hl with h2 | h2 | ⟨c, hcm, hf⟩
      · simp [h2]
      · simp [h2]
      · have : lab.all isDomainChar = false :=
          List.all_eq_false.mpr ⟨c, hcm, by simp [hf]⟩
        simp [this]
    have hall : (splitOnChar '.' d).all labelOk = false :=
      List.all_eq_false.mpr ⟨lab, hm, by simp [hlab]⟩
    simp [hall]
  · have htld : tldOk t = false := by
      unfold tldOk
      rcases hcond with h2 | h2
      · simp [h2]
      · have : decide (2 ≤ t.length) = false := decide_eq_false (by omega)
        simp [this]
    rw [ht]
    simp [htld]

/-- C6: a string with zero occurrences of the separator `@`, or more than
one, is rejected by the validator and by the checked constructor. -/
theorem email_separator_count_rejection (s : String)
    (h : s.data.count '@' ≠ 1) :
    is_valid_email s = false ∧ Email.from_str s = .error ⟨s⟩ := by
  have hv : is_valid_email s = false := by
    unfold is_valid_email validEmailChars
    simp [h]
  exact ⟨hv, from_str_eq_error s hv⟩

/-- Witness for C6 at a string with zero separators and one with two. -/
theorem email_separator_count_rejection_witness :
    (is_valid_email "ab.cd" = false ∧
     Email.from_str "ab.cd" = .error ⟨"ab.cd"⟩) ∧
    (is_valid_email "a@@b.co" = false ∧
     Email.from_str "a@@b.co" = .error ⟨"a@@b.co"⟩) :=
  ⟨email_separator_count_rejection "ab.cd" (by decide),
   email_separator_count_rejection "a@@b.co" (by decide)⟩

/-- C7: for a candidate with exactly one `@`, an empty local part, a
character outside the allowed class, a leading or trailing dot, two
consecutive dots, or a local part longer than 64 characters is
rejected. -/
theorem email_local_part_rejection (s : String)
    (hone : s.data.count '@' = 1)
    (hbad : (localPartOf s.data).isEmpty = true ∨
            (∃ c ∈ localPartOf s.data, isLocalChar c = false) ∨
            (localPartOf s.data).head? = some '.' ∨
            (localPartOf s.data).getLast? = some '.' ∨
            (∃ a b, localPartOf s.data = a ++ '.' :: '.' :: b) ∨
            64 < (localPartOf s.data).length) :
    is_valid_email s = false ∧ Email.from_str s = .error ⟨s⟩ := by
  have hl : localOk (localPartOf s.data) = false := localOk_eq_false _ hbad
  have hv : is_valid_email s = false := by
    unfold is_valid_email validEmailChars
    simp [hone, hl]
  exact ⟨hv, from_str_eq_error s hv⟩

/-- Witness for C7 at the concrete input ".a@b.co" (leading dot in the
local part). -/
theorem email_local_part_rejection_witness :
    is_valid_email ".a@b.co" = false ∧
    Email.from_str ".a@b.co" = .error ⟨".a@b.co"⟩ :=
  email_local_part_rejection ".a@b.co" (by decide)
    (Or.inr (Or.inr (Or.inl (by decide))))

/-- C8: for a candidate with exactly one `@`, an empty domain, a domain
without a dot, an empty label, a label that starts or ends with a hyphen
or holds a character outside letters/digits/hyphen, or a final label
that is not purely alphabetic or is shorter than 2 characters, is
rejected. -/
theorem email_domain_part_rejection (s : String)
    (hone : s.data.count '@' = 1)
    (hbad : (domainPartOf s.data).isEmpty = true ∨
            ('.' ∉ domainPartOf s.data) ∨
            (∃ lab ∈ splitOnChar '.' (domainPartOf s.data), lab = []) ∨
            (∃ lab ∈ splitOnChar '.' (domainPartOf s.data),
               lab.head? = some '-' ∨ lab.getLast? = some '-' ∨
               ∃ c ∈ lab, isDomainChar c = false) ∨
            (∃ t, (splitOnChar '.' (domainPartOf s.data)).getLast? = some t ∧
               (t.all Char.isAlpha = false ∨ t.length < 2))) :
    is_valid_email s = false ∧ Email.from_str s = .error ⟨s⟩ := by
  have hd : domainOk (domainPartOf s.data) = false := domainOk_eq_false _ hbad
  have hv : is_valid_email s = false := by
    unfold is_valid_email validEmailChars
    simp [hone, hd]
  exact ⟨hv, from_str_eq_error s hv⟩

/-- Witness for C8 at the concrete input "a@x" (domain without a dot). -/
theorem email_domain_part_rejection_witness :
    is_valid_email "a@x" = false ∧
    Email.from_str "a@x" = .error ⟨"a@x"⟩ :=
  email_domain_part_rejection "a@x" (by decide)
    (Or.inr (Or.inl (by decide)))

/-- C10: equality and ordering of Email delegate to the underlying text:
an Email constructed from "a@b.co" compares equal to the plain string
"a@b.co" and to every Email constructed from the same text, and
ordering of two Emails is the plain-string ordering of their texts. -/
theorem email_eq_ord_delegate :
    (∀ e1 e2 : Email, Email.from_str "a@b.co" = .ok e1 →
        Email.from_str "a@b.co" = .ok e2 →
        Email.eqString e1 "a@b.co" = true ∧ Email.beq e1 e2 = true) ∧
    (∀ a b : Email, (Email.beq a b = true ↔ a.text = b.text) ∧
        Email.cmp a b = compare a.text b.text) := by
  constructor
  · intro e1 e2 h1 h2
    obtain ⟨-, he1⟩ := from_str_ok_elim _ _ h1
    obtain ⟨-, he2⟩ := from_str_ok_elim _ _ h2
    subst he1
    subst he2
    exact ⟨by decide, by decide⟩
  · intro a b
    exact ⟨by simp [Email.beq], rfl⟩

/-- Witness for C10 at two Emails built from "a@b.co". -/
theorem email_eq_ord_delegate_witness :
    Email.eqString ⟨"a@b.co"⟩ "a@b.co" = true ∧
    Email.beq ⟨"a@b.co"⟩ ⟨"a@b.co"⟩ = true :=
  email_eq_ord_delegate.1 ⟨"a@b.co"⟩ ⟨"a@b.co"⟩ (by rfl) (by rfl)

end SerdeEmail
